import Mathlib

/-!
Verification development for the solana-vault-mcp repository.

Shallow embedding of the wallet service (`app/services/solana_wallet.py`),
the wallet action handlers (`app/handlers/wallet_actions.py`) and the action
router, followed by theorems about the embedded definitions.

Modelling conventions:
* Python dicts used as the transaction cache become association lists with
  Python assignment semantics (`d[k] = v` replaces an existing binding in
  place or appends a new one).
* RPC responses become records of `Option` fields: a `none` models a response
  missing the corresponding key.
* Python floats for SOL amounts become exact rationals; `int(x)` becomes
  truncation toward zero of the exact rational value.
* Raised exceptions become `Except` error values; each distinct raise site
  gets its own constructor so that error kinds stay distinguishable.
* The wall-clock `timestamp` field of a cached transfer entry is not modelled
  (real time); the `type`, `amount` and `recipient` fields are.
-/

namespace SolanaVault

/-- `matchHead pat l` is true iff `pat` occurs at the head of `l`
(character-by-character comparison). -/
def matchHead : List Char → List Char → Bool
  | [], _ => true
  | _ :: _, [] => false
  | p :: ps, c :: cs => (p = c) && matchHead ps cs

/-- `hasSub pat l` is true iff `pat` occurs contiguously somewhere in `l`. -/
def hasSub (pat : List Char) : List Char → Bool
  | [] => matchHead pat []
  | c :: cs => matchHead pat (c :: cs) || hasSub pat cs

/-- Python's `pat in s` substring test on strings. -/
def strIn (pat s : String) : Bool := hasSub pat.data s.data

/-- `SolanaWallet._get_network_name`: classify the RPC URL by the literal
substrings `mainnet`, `testnet`, `devnet`, in that order; default
`unknown`. -/
def networkName (rpc_url : String) : String :=
  if strIn "mainnet" rpc_url then "mainnet"
  else if strIn "testnet" rpc_url then "testnet"
  else if strIn "devnet" rpc_url then "devnet"
  else "unknown"

/-- Python dict assignment `d[k] = v` on an association list: replace the
binding of `k` in place if present, otherwise append it at the end. -/
def dictInsert {α : Type} : List (String × α) → String → α → List (String × α)
  | [], k, v => [(k, v)]
  | (k0, v0) :: rest, k, v =>
    if k0 = k then (k, v) :: rest else (k0, v0) :: dictInsert rest k v

/-- Python dict lookup `d.get(k)` on an association list. -/
def dictGet {α : Type} : List (String × α) → String → Option α
  | [], _ => none
  | (k0, v0) :: rest, k => if k0 = k then some v0 else dictGet rest k

/-- Python `int(q)` on an exact rational: truncation toward zero. -/
def pyInt (q : ℚ) : ℤ := q.num.tdiv q.den

/-- `lamports = int(amount * 1_000_000_000)` from `transfer_sol`. -/
def solToLamports (amount : ℚ) : ℤ := pyInt (amount * 1000000000)

/-- `balance_lamports / 1_000_000_000` from `get_balance` (and the display
amounts interpolated into the insufficient-balance message). -/
def lamportsToSol (n : ℤ) : ℚ := (n : ℚ) / 1000000000

/-- Response of `client.send_transaction`: an optional `"error"` field and an
optional `"result"` field (the signature). -/
structure SendResp where
  error : Option String
  result : Option String
deriving DecidableEq

/-- One element of the `get_signatures_for_address` result list. -/
structure TxSummary where
  signature : String
  slot : ℕ
  err : Option String
  memo : Option String
  blockTime : Option ℤ
deriving DecidableEq

/-- Response of `client.get_signatures_for_address`: optional `"error"` and
optional `"result"` list. -/
structure SignaturesResp where
  error : Option String
  result : Option (List TxSummary)
deriving DecidableEq

/-- Stand-in for the ledger client adapter (`solana.rpc.api.Client` plus
`PublicKey` parsing): the environment a wallet call observes.
`balanceValue` is the `result.value` of `get_balance` (`none` models a
response missing `"result"`); `signatures` is the response of
`get_signatures_for_address` as a function of the requested limit;
`validAddress` models whether `PublicKey(recipient)` parses. -/
structure Adapter where
  validAddress : String → Bool
  balanceValue : Option ℕ
  sendResp : SendResp
  signatures : ℤ → SignaturesResp

/-- A cached transfer entry (`tx_history[signature]`), minus the wall-clock
timestamp field. -/
structure TxEntry where
  type : String
  amount : ℚ
  recipient : String
deriving DecidableEq

/-- Error kinds of `SolanaWallet.transfer_sol`, one per raise site (the outer
handler re-wraps them all into a `ValueError` whose message starts with
`Failed to transfer SOL:`). `insufficientBalance` carries the two display-unit
amounts interpolated into its message. -/
inductive TransferErr where
  | invalidAddress (recipient : String)
  | balanceRpcError
  | insufficientBalance (available requested : ℚ)
  | sendFailed (msg : String)
  | unexpectedSendResponse
deriving DecidableEq

/-- Output of `transfer_sol`: the returned signature or the raised error, the
transaction cache after the call, and whether `send_transaction` was
invoked. -/
structure TransferOut where
  result : Except TransferErr String
  history : List (String × TxEntry)
  submitted : Bool

/-- `SolanaWallet.transfer_sol`: parse the recipient, convert the amount to
lamports, fetch the balance, compare in base units, submit, then cache the
entry under the returned signature. -/
def transfer_sol (a : Adapter) (hist : List (String × TxEntry))
    (recipient : String) (amount : ℚ) : TransferOut :=
  if a.validAddress recipient = false then
    ⟨.error (.invalidAddress recipient), hist, false⟩
  else
    let lamports := solToLamports amount
    match a.balanceValue with
    | none => ⟨.error .balanceRpcError, hist, false⟩
    | some bal =>
      if (bal : ℤ) < lamports then
        ⟨.error (.insufficientBalance (lamportsToSol bal) amount), hist, false⟩
      else
        match a.sendResp.error with
        | some m => ⟨.error (.sendFailed m), hist, true⟩
        | none =>
          match a.sendResp.result with
          | none => ⟨.error .unexpectedSendResponse, hist, true⟩
          | some sig =>
            ⟨.ok sig, dictInsert hist sig ⟨"transfer", amount, recipient⟩, true⟩

/-- `SolanaWallet.get_balance`: lamports from the adapter divided by 1e9, or
an error when the response has no `"result"`. -/
def get_balance (a : Adapter) : Except String ℚ :=
  match a.balanceValue with
  | none => .error "Failed to get SOL balance"
  | some v => .ok (lamportsToSol v)

/-- The wallet object constructed by `SolanaWallet.__init__`: derived public
key, network label, version fingerprint, and the mutable transaction cache. -/
structure Wallet where
  publicKey : String
  network : String
  networkVersion : String
  tx_history : List (String × TxEntry)
deriving DecidableEq

/-- Construction-time environment of `SolanaWallet.__init__`: `decode` maps
the private key to its derived public key (`none` models a base58/keypair
failure), `getVersion` maps the RPC URL to the `solana-core` version string
(`none` models an unreachable endpoint or a version response missing
`"result"`). -/
structure InitEnv where
  decode : String → Option String
  getVersion : String → Option String

/-- `SolanaWallet.__init__`: decode the key, probe the endpoint version,
stamp the network label from the URL, and start with an empty transaction
cache. Any failure is re-raised as `Failed to initialize Solana wallet`. -/
def mkWallet (env : InitEnv) (private_key rpc_url : String) :
    Except String Wallet :=
  match env.decode private_key with
  | none => .error "Failed to initialize Solana wallet: invalid key material"
  | some pk =>
    match env.getVersion rpc_url with
    | none =>
      .error "Failed to initialize Solana wallet: Failed to connect to Solana RPC"
    | some v =>
      .ok { publicKey := pk, network := networkName rpc_url,
            networkVersion := v, tx_history := [] }

/-- Output of the registry's `initialize_wallet`: the returned value or the
propagated construction error, the registry slot afterwards, and whether a
construction was attempted. -/
structure InitOut where
  result : Except String Wallet
  state : Option Wallet
  constructed : Bool

/-- The module-level `initialize_wallet`: construct and store a wallet only
when the slot `_wallet_instance` is empty; otherwise return the stored
instance untouched, ignoring the arguments. A construction failure
propagates and leaves the slot empty. -/
def initialize_wallet (construct : String → String → Except String Wallet)
    (state : Option Wallet) (private_key rpc_url : String) : InitOut :=
  match state with
  | some w => ⟨.ok w, some w, false⟩
  | none =>
    match construct private_key rpc_url with
    | .ok w => ⟨.ok w, some w, true⟩
    | .error e => ⟨.error e, none, true⟩

/-- The module-level `get_wallet`: the stored instance, or a `ValueError`
when the slot is empty. -/
def get_wallet (state : Option Wallet) : Except String Wallet :=
  match state with
  | none => .error "Wallet not initialized. Call initialize_wallet first."
  | some w => .ok w

/-- One normalized entry of `get_recent_transactions`. -/
structure NormalizedTx where
  signature : String
  slot : ℕ
  err : Option String
  memo : Option String
  block_time : Option ℤ
deriving DecidableEq

/-- The per-entry formatting loop of `get_recent_transactions`. -/
def normalizeTx (tx : TxSummary) : NormalizedTx :=
  ⟨tx.signature, tx.slot, tx.err, tx.memo, tx.blockTime⟩

/-- `SolanaWallet.get_recent_transactions`: fetch signatures for the wallet
address at the given limit and mirror them into the normalized shape. -/
def get_recent_transactions (a : Adapter) (limit : ℤ) :
    Except String (List NormalizedTx) :=
  match (a.signatures limit).error with
  | some m => .error ("Failed to get recent transactions: " ++ m)
  | none =>
    match (a.signatures limit).result with
    | none => .error "Unexpected response format"
    | some txs => .ok (txs.map normalizeTx)

/-- The zero-valued token balance descriptor of the `get_token_balance`
stub. -/
structure TokenBalance where
  mint : String
  amount : String
  decimals : ℕ
  ui_amount : ℚ
deriving DecidableEq

/-- `SolanaWallet.get_token_balance`: stub returning a zero-valued
descriptor for any mint. -/
def get_token_balance (token_mint : String) : TokenBalance :=
  ⟨token_mint, "0", 0, 0⟩

/-- Result of a Python numeric conversion (`float()` or `int()`) applied to a
request parameter: a value on success, a `ValueError` for a string that does
not parse as a number, or a `TypeError` for a non-string non-numeric value
(JSON null, array or object). The handlers catch only `ValueError`; a
`TypeError` escapes them. -/
inductive PyConv (α : Type) where
  | val (x : α)
  | valueError
  | typeError
deriving DecidableEq

/-- Error kinds raised inside the wallet action handlers, as seen at the
router boundary. `typeError` is an uncaught Python `TypeError` escaping a
handler (its message is abstracted to the fixed interpreter text). -/
inductive HErr where
  | missingParam (name : String)
  | invalidAmount (msg : String)
  | typeError (msg : String)
  | walletErr (e : TransferErr)
  | rpcError (msg : String)
  | notInitialized
  | unknownAction (action : String)
deriving DecidableEq

/-- Success payloads of the five wallet action handlers, one constructor per
returned dict shape. -/
inductive Payload where
  | info (address network network_version : String) (balance : ℚ)
  | balance (balance : ℚ) (currency address : String)
  | transfer (success : Bool) (signature : String) (amount : ℚ)
      (recipient explorer_url : String)
  | transactions (txs : List NormalizedTx) (count : ℕ) (address : String)
  | tokenBalance (token_mint : String) (balance : ℚ) (raw_balance : String)
      (decimals : ℕ) (address : String)
deriving DecidableEq

/-- The `params` of a `wallet.transfer` request: `recipient` may be absent;
`amount` may be absent (outer `none`) or present with the outcome of
`float(params['amount'])` described by `PyConv`. -/
structure TransferParams where
  recipient : Option String
  amount : Option (PyConv ℚ)

/-- The handler `transfer_sol` of `wallet_actions.py`: validate params, then
delegate to the wallet operation. Only `ValueError` from `float()` is caught
and reported as an invalid amount; a `TypeError` escapes the handler and
reaches the router's catch-all. Returns the handler outcome, the wallet
afterwards, and whether a transaction submission was performed. -/
def transfer_sol_handler (a : Adapter) (w : Wallet) (p : TransferParams) :
    Except HErr Payload × Wallet × Bool :=
  match p.recipient with
  | none => (.error (.missingParam "recipient"), w, false)
  | some r =>
    match p.amount with
    | none => (.error (.missingParam "amount"), w, false)
    | some .valueError =>
      (.error (.invalidAmount "Invalid amount value. Must be a valid number."),
       w, false)
    | some .typeError =>
      (.error (.typeError "float() argument must be a string or a real number"),
       w, false)
    | some (.val q) =>
      if q ≤ 0 then
        (.error (.invalidAmount "Amount must be greater than 0"), w, false)
      else
        let t := transfer_sol a w.tx_history r q
        match t.result with
        | .error e => (.error (.walletErr e), { w with tx_history := t.history },
                       t.submitted)
        | .ok sig =>
          (.ok (.transfer true sig q r
              ("https://explorer.solana.com/tx/" ++ sig ++ "?cluster=" ++ w.network)),
           { w with tx_history := t.history }, t.submitted)

/-- The out-of-range check of the handler `get_transactions`: replace
anything outside [1, 100] by 10. -/
def clampLimit (limit : ℤ) : ℤ :=
  if limit ≤ 0 ∨ 100 < limit then 10 else limit

/-- The limit computation of the handler `get_transactions`:
`int(params.get('limit', 10))` with only `ValueError` caught (falling back to
10), then the out-of-range check. A `TypeError` from `int()` is not caught
and escapes the handler. The parameter is `none` when absent; otherwise the
outcome of `int()` on it is described by `PyConv`. -/
def pyLimit (p : Option (PyConv ℤ)) : Except String ℤ :=
  match p with
  | none => .ok (clampLimit 10)
  | some (.val n) => .ok (clampLimit n)
  | some .valueError => .ok (clampLimit 10)
  | some .typeError =>
    .error "int() argument must be a string, a bytes-like object or a real number"

/-- Build the `get_transactions` response dict from the wallet operation's
outcome. -/
def txPayload (w : Wallet) (r : Except String (List NormalizedTx)) :
    Except HErr Payload :=
  match r with
  | .error m => .error (.rpcError m)
  | .ok txs => .ok (.transactions txs txs.length w.publicKey)

/-- The handler `get_transactions` of `wallet_actions.py`: compute the limit
(letting an uncaught `TypeError` escape), call the wallet operation with it,
and wrap the result. -/
def get_transactions (a : Adapter) (w : Wallet)
    (limitParam : Option (PyConv ℤ)) : Except HErr Payload :=
  match pyLimit limitParam with
  | .error m => .error (.typeError m)
  | .ok limit => txPayload w (get_recent_transactions a limit)

/-- The handler `get_token_balance` of `wallet_actions.py`. -/
def token_balance_handler (w : Wallet) (token_mint : Option String) :
    Except HErr Payload :=
  match token_mint with
  | none => .error (.missingParam "token_mint")
  | some m =>
    let td := get_token_balance m
    .ok (.tokenBalance m td.ui_amount td.amount td.decimals w.publicKey)

/-- A `wallet.*` request as the router sees it: the action string and the
param fields the handlers may read. -/
structure MCPReq where
  action : String
  transferP : TransferParams
  limitP : Option (PyConv ℤ)
  tokenMint : Option String

/-- The structured failure dict built by the router's `except` clause:
`{"error": ..., "action": ..., "success": False}`. -/
structure FailureResult where
  error : HErr
  action : String
  success : Bool
deriving DecidableEq

/-- Outcome of `handle_wallet_action`: a handler success dict or the
router's structured failure dict. -/
inductive RouterResult where
  | ok (p : Payload)
  | failure (f : FailureResult)
deriving DecidableEq

/-- The `try` block of `handle_wallet_action`: look up the wallet, dispatch
on the action string, raise `Unknown wallet action` otherwise. Returns the
outcome together with the registry slot afterwards (the transfer handler
mutates the wallet's transaction cache). -/
def routerCore (a : Adapter) (reg : Option Wallet) (req : MCPReq) :
    Except HErr Payload × Option Wallet :=
  match get_wallet reg with
  | .error _ => (.error .notInitialized, reg)
  | .ok w =>
    if req.action = "wallet.info" then
      match get_balance a with
      | .error m => (.error (.rpcError m), some w)
      | .ok b => (.ok (.info w.publicKey w.network w.networkVersion b), some w)
    else if req.action = "wallet.balance" then
      match get_balance a with
      | .error m => (.error (.rpcError m), some w)
      | .ok b => (.ok (.balance b "SOL" w.publicKey), some w)
    else if req.action = "wallet.transfer" then
      match transfer_sol_handler a w req.transferP with
      | (res, w2, _) => (res, some w2)
    else if req.action = "wallet.transactions" then
      (get_transactions a w req.limitP, some w)
    else if req.action = "wallet.token_balance" then
      (token_balance_handler w req.tokenMint, some w)
    else
      (.error (.unknownAction req.action), some w)

/-- Output of `handle_wallet_action`. -/
structure RouterOut where
  result : RouterResult
  registry : Option Wallet

/-- `handle_wallet_action`: run the dispatch and catch every handler-level
failure, converting it into the structured failure dict carrying the original
action string and `success = false`. -/
def handle_wallet_action (a : Adapter) (reg : Option Wallet) (req : MCPReq) :
    RouterOut :=
  match routerCore a reg req with
  | (.ok p, reg2) => ⟨.ok p, reg2⟩
  | (.error e, reg2) => ⟨.failure ⟨e, req.action, false⟩, reg2⟩

/-! Helper lemmas about the embedded dictionary and unit conversion. -/

lemma pyInt_coe_nat (n : ℕ) : pyInt (n : ℚ) = n := by
  simp [pyInt]

lemma dictGet_dictInsert_self {α : Type} (d : List (String × α)) (k : String)
    (v : α) : dictGet (dictInsert d k v) k = some v := by
  induction d with
  | nil => simp [dictInsert, dictGet]
  | cons hd tl ih =>
    obtain ⟨k0, v0⟩ := hd
    by_cases h : k0 = k
    · simp [dictInsert, dictGet, h]
    · simp [dictInsert, dictGet, h, ih]

lemma dictGet_dictInsert_ne {α : Type} (d : List (String × α)) (k k2 : String)
    (v : α) (h : k2 ≠ k) : dictGet (dictInsert d k v) k2 = dictGet d k2 := by
  induction d with
  | nil => simp [dictInsert, dictGet, Ne.symm h]
  | cons hd tl ih =>
    obtain ⟨k0, v0⟩ := hd
    by_cases hk : k0 = k
    · subst hk
      simp [dictInsert, dictGet, Ne.symm h]
    · simp [dictInsert, dictGet, hk, ih]

lemma dictInsert_length_of_not_mem {α : Type} (d : List (String × α))
    (k : String) (v : α) (h : dictGet d k = none) :
    (dictInsert d k v).length = d.length + 1 := by
  induction d with
  | nil => simp [dictInsert]
  | cons hd tl ih =>
    obtain ⟨k0, v0⟩ := hd
    by_cases hk : k0 = k
    · simp [dictGet, hk] at h
    · simp [dictGet, hk] at h
      simp [dictInsert, hk, ih h]

/-! Sample environments used to instantiate the theorems below at concrete
inputs. -/

/-- An address parser accepting every recipient string. -/
def addrOk : String → Bool := fun _ => true

/-- A signatures response with no result, for calls that never reach it. -/
def noSigs : ℤ → SignaturesResp := fun _ => ⟨none, none⟩

/-- An adapter with the given lamport balance whose submission succeeds with
the given signature. -/
def adapterWith (bal : ℕ) (sig : String) : Adapter :=
  ⟨addrOk, some bal, ⟨none, some sig⟩, noSigs⟩

/-- A concrete wallet object. -/
def sampleWallet : Wallet := ⟨"4Nd1mY5c7k1xPubKey111", "devnet", "1.14.10", []⟩

/-- A request for an action absent from the dispatch table. -/
def sampleReq : MCPReq := ⟨"wallet.unknown_thing", ⟨none, none⟩, none, none⟩

/-- A construction environment whose key decoding always fails. -/
def badKeyEnv : InitEnv := ⟨fun _ => none, fun _ => some "1.14.10"⟩

/-- An adapter whose signature-history lookup succeeds with an empty list. -/
def adapterSigs : Adapter :=
  ⟨addrOk, some 0, ⟨none, none⟩, fun _ => ⟨none, some []⟩⟩

/-- Whether a handler outcome is the invalid-amount failure. -/
def isInvalidAmountErr : Except HErr Payload → Bool
  | .error (.invalidAmount _) => true
  | _ => false

lemma transfer_sol_ok_eval (a : Adapter) (hist : List (String × TxEntry))
    (r : String) (q : ℚ) (sig : String) (bal : ℕ)
    (hv : a.validAddress r = true) (hb : a.balanceValue = some bal)
    (hle : solToLamports q ≤ (bal : ℤ)) (hs : a.sendResp = ⟨none, some sig⟩) :
    transfer_sol a hist r q
      = ⟨.ok sig, dictInsert hist sig ⟨"transfer", q, r⟩, true⟩ := by
  have hcond : ¬ ((bal : ℤ) < solToLamports q) := not_lt.mpr hle
  simp only [transfer_sol, hv, hb, hs, Bool.true_eq_false, if_false,
    if_neg hcond]

lemma transfer_sol_insufficient_eval (a : Adapter)
    (hist : List (String × TxEntry)) (r : String) (q : ℚ) (bal : ℕ)
    (hv : a.validAddress r = true) (hb : a.balanceValue = some bal)
    (hlt : (bal : ℤ) < solToLamports q) :
    transfer_sol a hist r q
      = ⟨.error (.insufficientBalance (lamportsToSol bal) q), hist, false⟩ := by
  simp only [transfer_sol, hv, hb, Bool.true_eq_false, if_false, if_pos hlt]

/-- Claim C1: for every syntactically valid recipient and positive amount
whose base-unit value is at most the adapter's base-unit balance, and an
adapter whose submission reports a signature, `transfer_sol` succeeds with
that signature, the transaction cache gains the entry for that signature with
the requested amount and recipient, every other key is unchanged, and when
the signature is fresh the cache grows by exactly one entry. -/
theorem transfer_success_appends_cache (a : Adapter)
    (hist : List (String × TxEntry)) (r : String) (q : ℚ) (sig : String)
    (bal : ℕ) (_hq : 0 < q) (hv : a.validAddress r = true)
    (hb : a.balanceValue = some bal) (hle : solToLamports q ≤ (bal : ℤ))
    (hs : a.sendResp = ⟨none, some sig⟩) :
    (transfer_sol a hist r q).result = .ok sig
    ∧ (transfer_sol a hist r q).history = dictInsert hist sig ⟨"transfer", q, r⟩
    ∧ dictGet (transfer_sol a hist r q).history sig = some ⟨"transfer", q, r⟩
    ∧ (∀ k, k ≠ sig →
        dictGet (transfer_sol a hist r q).history k = dictGet hist k)
    ∧ (dictGet hist sig = none →
        (transfer_sol a hist r q).history.length = hist.length + 1) := by
  rw [transfer_sol_ok_eval a hist r q sig bal hv hb hle hs]
  refine ⟨rfl, rfl, dictGet_dictInsert_self hist sig _, ?_, ?_⟩
  · intro k hk
    exact dictGet_dictInsert_ne hist sig k _ hk
  · intro h
    exact dictInsert_length_of_not_mem hist sig _ h

/-- Claim C1 witness: a concrete successful transfer of 0.5 SOL against a
balance of 1 SOL. -/
theorem transfer_success_appends_cache_witness :
    (transfer_sol (adapterWith 1000000000 "sig1") [] "Bob" (1/2)).result
      = .ok "sig1" := by
  have hle : solToLamports (1/2) ≤ ((1000000000 : ℕ) : ℤ) := by
    have h2 : ((1 : ℚ)/2 * 1000000000) = ((500000000 : ℕ) : ℚ) := by norm_num
    rw [solToLamports, h2, pyInt_coe_nat]
    norm_num
  exact (transfer_success_appends_cache (adapterWith 1000000000 "sig1") []
    "Bob" (1/2) "sig1" 1000000000 (by norm_num) rfl rfl hle rfl).1

/-- Claim C2 counterexample: for a non-string non-numeric amount (JSON null;
`float()` raises `TypeError`, which `except ValueError` does not catch) the
handler fails with the escaping type error, not with the invalid-amount
error. -/
theorem transfer_handler_amount_counterexample :
    (transfer_sol_handler (adapterWith 5 "s") sampleWallet
        ⟨some "Bob", some .typeError⟩).1
      = .error (.typeError "float() argument must be a string or a real number")
    ∧ isInvalidAmountErr (transfer_sol_handler (adapterWith 5 "s")
        sampleWallet ⟨some "Bob", some .typeError⟩).1 = false :=
  ⟨rfl, rfl⟩

/-- Claim C2 (amended): with a recipient present, an amount that is zero,
negative, or a string `float()` cannot parse (`ValueError`) makes the handler
fail with the invalid-amount error, no submission, wallet unchanged; a
non-string non-numeric amount (`TypeError`) instead escapes as a generic type
error — not reported as invalid-amount — likewise with no submission and the
wallet unchanged. -/
theorem transfer_handler_amount_validation (a : Adapter) (w : Wallet)
    (p : TransferParams) (r : String) (hr : p.recipient = some r) :
    ((p.amount = some .valueError
       ∨ ∃ q, p.amount = some (.val q) ∧ q ≤ 0) →
      (∃ m, (transfer_sol_handler a w p).1 = .error (.invalidAmount m))
      ∧ (transfer_sol_handler a w p).2.2 = false
      ∧ (transfer_sol_handler a w p).2.1 = w)
    ∧ (p.amount = some .typeError →
      (∃ m, (transfer_sol_handler a w p).1 = .error (.typeError m))
      ∧ isInvalidAmountErr (transfer_sol_handler a w p).1 = false
      ∧ (transfer_sol_handler a w p).2.2 = false
      ∧ (transfer_sol_handler a w p).2.1 = w) := by
  constructor
  · intro ha
    rcases ha with h | ⟨q, hq, hle⟩
    · simp [transfer_sol_handler, hr, h]
    · simp [transfer_sol_handler, hr, hq, if_pos hle]
  · intro h
    simp [transfer_sol_handler, isInvalidAmountErr, hr, h]

/-- Claim C2 witness: a zero amount with a present recipient is rejected
without a submission. -/
theorem transfer_handler_amount_validation_witness :
    (transfer_sol_handler (adapterWith 5 "s") sampleWallet
      ⟨some "Bob", some (.val 0)⟩).2.2 = false :=
  ((transfer_handler_amount_validation (adapterWith 5 "s") sampleWallet
    ⟨some "Bob", some (.val 0)⟩ "Bob" rfl).1
    (Or.inr ⟨0, rfl, le_refl 0⟩)).2.1

/-- Claim C3: when the requested base-unit amount exceeds the adapter's
base-unit balance, `transfer_sol` fails with the insufficient-balance error
carrying the available and requested amounts in display units, performs no
submission, and leaves the cache unchanged. -/
theorem transfer_insufficient_balance (a : Adapter)
    (hist : List (String × TxEntry)) (r : String) (q : ℚ) (bal : ℕ)
    (hv : a.validAddress r = true) (hb : a.balanceValue = some bal)
    (hlt : (bal : ℤ) < solToLamports q) :
    (transfer_sol a hist r q).result
      = .error (.insufficientBalance (lamportsToSol bal) q)
    ∧ (transfer_sol a hist r q).history = hist
    ∧ (transfer_sol a hist r q).submitted = false := by
  rw [transfer_sol_insufficient_eval a hist r q bal hv hb hlt]
  exact ⟨rfl, rfl, rfl⟩

/-- Claim C3 witness: requesting 1 SOL against a zero balance fails with the
insufficient-balance error and no submission. -/
theorem transfer_insufficient_balance_witness :
    (transfer_sol (adapterWith 0 "s") [] "Bob" 1).result
      = .error (.insufficientBalance (lamportsToSol 0) 1) := by
  have hlt : ((0 : ℕ) : ℤ) < solToLamports 1 := by
    have h2 : ((1 : ℚ) * 1000000000) = ((1000000000 : ℕ) : ℚ) := by norm_num
    rw [solToLamports, h2, pyInt_coe_nat]
    norm_num
  exact (transfer_insufficient_balance (adapterWith 0 "s") [] "Bob" 1 0 rfl
    rfl hlt).1

/-- Claim C4: the conversion factor is exactly 1e9 and sufficiency is decided
on base-unit integers: a balance of 1,500,000,000 lamports reads back as
exactly 1.5 SOL, a transfer of 0.1 SOL computes exactly 100,000,000 lamports,
a balance of exactly 100,000,000 lamports suffices for that transfer, and one
lamport less fails the base-unit comparison. -/
theorem unit_conversion_exact :
    get_balance (adapterWith 1500000000 "s") = .ok (3/2)
    ∧ solToLamports (1/10) = 100000000
    ∧ (transfer_sol (adapterWith 100000000 "sig4") [] "r" (1/10)).result
        = .ok "sig4"
    ∧ (transfer_sol (adapterWith 99999999 "sig4") [] "r" (1/10)).result
        = .error (.insufficientBalance (lamportsToSol 99999999) (1/10)) := by
  have hsol : solToLamports (1/10) = 100000000 := by
    have h2 : ((1 : ℚ)/10 * 1000000000) = ((100000000 : ℕ) : ℚ) := by norm_num
    rw [solToLamports, h2, pyInt_coe_nat]
    norm_cast
  refine ⟨?_, hsol, ?_, ?_⟩
  · have : lamportsToSol 1500000000 = 3/2 := by
      rw [lamportsToSol]; norm_num
    simp [get_balance, adapterWith, this]
  · have hle : solToLamports (1/10) ≤ ((100000000 : ℕ) : ℤ) := by
      rw [hsol]; norm_num
    rw [transfer_sol_ok_eval (adapterWith 100000000 "sig4") [] "r" (1/10)
      "sig4" 100000000 rfl rfl hle rfl]
  · have hlt : ((99999999 : ℕ) : ℤ) < solToLamports (1/10) := by
      rw [hsol]; norm_num
    rw [transfer_sol_insufficient_eval (adapterWith 99999999 "sig4") [] "r"
      (1/10) 99999999 rfl rfl hlt]
    norm_cast

/-- Claim C5 counterexample: for a non-string non-numeric limit (JSON null;
`int()` raises `TypeError`, which `except ValueError` does not catch) the
handler errors instead of silently substituting 10; an absent limit, by
contrast, yields the default-10 success result. -/
theorem get_transactions_limit_clamp_counterexample :
    get_transactions adapterSigs sampleWallet (some .typeError)
      = .error (.typeError
          "int() argument must be a string, a bytes-like object or a real number")
    ∧ get_transactions adapterSigs sampleWallet none
        = .ok (.transactions [] 0 "4Nd1mY5c7k1xPubKey111") :=
  ⟨rfl, rfl⟩

/-- Claim C5 (amended): a numeric limit outside [1, 100] and a string limit
`int()` cannot parse (`ValueError`) are silently replaced by 10, behaving
exactly as if no limit had been supplied; an in-range limit passes through
unchanged to the wallet operation; a non-string non-numeric limit
(`TypeError`) is not substituted: the error escapes the handler. -/
theorem get_transactions_limit_clamp_amended (a : Adapter) (w : Wallet)
    (n : ℤ) :
    ((n < 1 ∨ 100 < n) → pyLimit (some (.val n)) = .ok 10
      ∧ get_transactions a w (some (.val n)) = get_transactions a w none)
    ∧ (pyLimit (some .valueError) = .ok 10
      ∧ get_transactions a w (some .valueError) = get_transactions a w none)
    ∧ (1 ≤ n → n ≤ 100 → pyLimit (some (.val n)) = .ok n
      ∧ get_transactions a w (some (.val n))
          = txPayload w (get_recent_transactions a n))
    ∧ (∃ m, get_transactions a w (some .typeError)
        = .error (.typeError m)) := by
  refine ⟨?_, ⟨rfl, rfl⟩, ?_,
    ⟨"int() argument must be a string, a bytes-like object or a real number",
     rfl⟩⟩
  · intro h
    have h10 : pyLimit (some (.val n)) = .ok 10 := by
      have hc : n ≤ 0 ∨ 100 < n := by omega
      simp only [pyLimit, clampLimit, if_pos hc]
    exact ⟨h10, by simp only [get_transactions]; rw [h10]; rfl⟩
  · intro h1 h2
    have hn : pyLimit (some (.val n)) = .ok n := by
      have hc : ¬ (n ≤ 0 ∨ 100 < n) := by omega
      simp only [pyLimit, clampLimit, if_neg hc]
    exact ⟨hn, by simp only [get_transactions, hn]⟩

/-- Claim C5 witness: limit 150 is silently replaced by the default 10. -/
theorem get_transactions_limit_clamp_amended_witness :
    pyLimit (some (.val 150)) = .ok 10
    ∧ get_transactions adapterSigs sampleWallet (some (.val 150))
        = get_transactions adapterSigs sampleWallet none :=
  (get_transactions_limit_clamp_amended adapterSigs sampleWallet 150).1
    (by omega)

/-- Claim C6: the first `initialize_wallet` call on an empty slot constructs
and stores the wallet; every subsequent call, with arbitrary new arguments,
returns the identical stored instance without attempting construction. -/
theorem initialize_wallet_idempotent
    (construct : String → String → Except String Wallet)
    (pk url pk2 url2 : String) (w : Wallet) (h : construct pk url = .ok w) :
    initialize_wallet construct none pk url = ⟨.ok w, some w, true⟩
    ∧ initialize_wallet construct (some w) pk2 url2
        = ⟨.ok w, some w, false⟩ := by
  constructor
  · simp only [initialize_wallet, h]
  · rfl

/-- Claim C6 witness: a second call with different arguments returns the
stored wallet and reports no construction. -/
theorem initialize_wallet_idempotent_witness :
    initialize_wallet (fun _ _ => .ok sampleWallet) none "key1" "url1"
      = ⟨.ok sampleWallet, some sampleWallet, true⟩
    ∧ initialize_wallet (fun _ _ => .ok sampleWallet) (some sampleWallet)
        "key2" "url2" = ⟨.ok sampleWallet, some sampleWallet, false⟩ :=
  initialize_wallet_idempotent (fun _ _ => .ok sampleWallet) "key1" "url1"
    "key2" "url2" sampleWallet rfl

/-- Claim C7: `get_wallet` on an empty slot fails with the not-initialized
error — it never produces a wallet — and on a filled slot returns exactly the
stored instance. -/
theorem get_wallet_not_initialized :
    get_wallet none
      = .error "Wallet not initialized. Call initialize_wallet first."
    ∧ ∀ w : Wallet, get_wallet (some w) = .ok w :=
  ⟨rfl, fun _ => rfl⟩

/-- Claim C8: every failure surfacing from `handle_wallet_action` is the
structured dict carrying the original action string and `success = false`,
and any `wallet.*` action outside the dispatch table yields such a failure
dict rather than a raw fault. -/
theorem router_wraps_failures (a : Adapter) (reg : Option Wallet)
    (req : MCPReq) :
    (∀ f, (handle_wallet_action a reg req).result = .failure f →
      f.action = req.action ∧ f.success = false)
    ∧ (req.action ≠ "wallet.info" → req.action ≠ "wallet.balance" →
       req.action ≠ "wallet.transfer" → req.action ≠ "wallet.transactions" →
       req.action ≠ "wallet.token_balance" →
       ∃ e, (handle_wallet_action a reg req).result
          = .failure ⟨e, req.action, false⟩) := by
  constructor
  · intro f h
    rw [handle_wallet_action] at h
    rcases hc : routerCore a reg req with ⟨res, reg2⟩
    rw [hc] at h
    cases res with
    | ok p => simp at h
    | error e =>
      simp only [RouterResult.failure.injEq] at h
      rw [← h]
      exact ⟨rfl, rfl⟩
  · intro h1 h2 h3 h4 h5
    cases reg with
    | none =>
      exact ⟨.notInitialized, rfl⟩
    | some w =>
      refine ⟨.unknownAction req.action, ?_⟩
      simp only [handle_wallet_action, routerCore, get_wallet, h1, h2, h3, h4,
        h5, if_false, if_neg h1, if_neg h2, if_neg h3, if_neg h4, if_neg h5]

/-- Claim C8 witness: the out-of-table action `wallet.unknown_thing` yields a
failure dict carrying that action string and `success = false`. -/
theorem router_wraps_failures_witness :
    ∃ e, (handle_wallet_action (adapterWith 0 "s") (some sampleWallet)
        sampleReq).result = .failure ⟨e, "wallet.unknown_thing", false⟩ :=
  (router_wraps_failures (adapterWith 0 "s") (some sampleWallet) sampleReq).2
    (by decide) (by decide) (by decide) (by decide) (by decide)

/-- Claim C9: network classification is a pure function of the endpoint URL
string, checking for the substrings `mainnet`, `testnet`, `devnet` in that
priority order and defaulting to `unknown`. -/
theorem networkName_priority (u : String) :
    (strIn "mainnet" u = true → networkName u = "mainnet")
    ∧ (strIn "mainnet" u = false → strIn "testnet" u = true →
        networkName u = "testnet")
    ∧ (strIn "mainnet" u = false → strIn "testnet" u = false →
        strIn "devnet" u = true → networkName u = "devnet")
    ∧ (strIn "mainnet" u = false → strIn "testnet" u = false →
        strIn "devnet" u = false → networkName u = "unknown") := by
  refine ⟨?_, ?_, ?_, ?_⟩
  · intro h1
    simp [networkName, h1]
  · intro h1 h2
    simp [networkName, h1, h2]
  · intro h1 h2 h3
    simp [networkName, h1, h2, h3]
  · intro h1 h2 h3
    simp [networkName, h1, h2, h3]

/-- Claim C9 witness: a URL containing both `testnet` and `mainnet`
classifies as `mainnet` by priority. -/
theorem networkName_priority_witness :
    networkName "https://testnet-and-mainnet.example.com" = "mainnet" :=
  (networkName_priority "https://testnet-and-mainnet.example.com").1
    (by decide)

/-- Claim C10: a failed construction leaves the registry slot empty: the
failure propagates out of `initialize_wallet`, a subsequent `get_wallet`
still fails with the not-initialized error, and a subsequent
`initialize_wallet` attempts construction again. -/
theorem initialize_wallet_atomic_on_failure (env : InitEnv)
    (pk url pk2 url2 : String)
    (hfail : env.decode pk = none ∨ env.getVersion url = none) :
    (∃ e, (initialize_wallet (mkWallet env) none pk url).result = .error e)
    ∧ (initialize_wallet (mkWallet env) none pk url).state = none
    ∧ get_wallet (initialize_wallet (mkWallet env) none pk url).state
        = .error "Wallet not initialized. Call initialize_wallet first."
    ∧ (initialize_wallet (mkWallet env)
        (initialize_wallet (mkWallet env) none pk url).state pk2
        url2).constructed = true := by
  have hE : ∃ e, mkWallet env pk url = Except.error e := by
    rcases hfail with h | h
    · exact ⟨"Failed to initialize Solana wallet: invalid key material",
        by simp [mkWallet, h]⟩
    · cases hd : env.decode pk with
      | none =>
        exact ⟨"Failed to initialize Solana wallet: invalid key material",
          by simp [mkWallet, hd]⟩
      | some pk0 =>
        exact
          ⟨"Failed to initialize Solana wallet: Failed to connect to Solana RPC",
           by simp [mkWallet, hd, h]⟩
  obtain ⟨e, he⟩ := hE
  have hfirst : initialize_wallet (mkWallet env) none pk url
      = ⟨.error e, none, true⟩ := by
    simp only [initialize_wallet, he]
  refine ⟨⟨e, by rw [hfirst]⟩, by rw [hfirst], by rw [hfirst]; rfl, ?_⟩
  rw [hfirst]
  show (initialize_wallet (mkWallet env) none pk2 url2).constructed = true
  rw [initialize_wallet]
  cases mkWallet env pk2 url2 with
  | ok w => rfl
  | error e2 => rfl

/-- Claim C10 witness: with key decoding failing, initialization stores
nothing in the registry slot. -/
theorem initialize_wallet_atomic_on_failure_witness :
    (initialize_wallet (mkWallet badKeyEnv) none "badkey" "url").state
      = none :=
  (initialize_wallet_atomic_on_failure badKeyEnv "badkey" "url" "k2" "u2"
    (Or.inl rfl)).2.1

end SolanaVault
